import Mathlib

/-!
Verification development for the machine-controller Azure-style provider plugin
(`src/pkg/cloudprovider/provider/equinixmetal/types/types.go`, package `azure`),
the userdata helper (`src/pkg/userdata/helper/helper.go`) and the shared error
taxonomy (`src/pkg/apis/cluster/common/consts.go`).

The Go code is shallowly embedded: the backend (Azure SDK calls) is modelled by
an environment of call outcomes, the Machine record is an explicit value, and
each lifecycle operation returns its result together with the updated Machine /
backend state and a trace of the externally visible calls it issued, in order.
-/

/-- The Machine record as consumed by the provider: identity plus the mutable
finalizer list (`clusterv1alpha1.Machine`, restricted to the fields the
provider code reads and writes). -/
structure Machine where
  name : String
  uid : String
  finalizers : List String
deriving DecidableEq, Repr

/-- `finalizerPublicIP = "kubermatic.io/cleanup-azure-public-ip"` from the provider constants. -/
def finalizerPublicIP : String := "kubermatic.io/cleanup-azure-public-ip"

/-- `finalizerPublicIPv6 = "kubermatic.io/cleanup-azure-public-ipv6"` from the provider constants. -/
def finalizerPublicIPv6 : String := "kubermatic.io/cleanup-azure-public-ipv6"

/-- `finalizerNIC = "kubermatic.io/cleanup-azure-nic"` from the provider constants. -/
def finalizerNIC : String := "kubermatic.io/cleanup-azure-nic"

/-- `finalizerDisks = "kubermatic.io/cleanup-azure-disks"` from the provider constants. -/
def finalizerDisks : String := "kubermatic.io/cleanup-azure-disks"

/-- `finalizerVM = "kubermatic.io/cleanup-azure-vm"` from the provider constants. -/
def finalizerVM : String := "kubermatic.io/cleanup-azure-vm"

/-- `InvalidConfigurationMachineError` from `pkg/apis/cluster/common/consts.go` line 37. -/
def invalidConfigurationMachineError : String := "InvalidConfiguration"

/-- Modelled from the spec: `kuberneteshelper.HasFinalizer` (outside src/) —
membership of the named marker in the Machine's finalizer set. -/
def hasFinalizer (m : Machine) (f : String) : Bool :=
  m.finalizers.contains f

/-- The `data.Update` mutator used throughout `Create`: append the finalizer
if it is not already present (`if !HasFinalizer(updatedMachine, f) { append }`). -/
def addFin (m : Machine) (f : String) : Machine :=
  if m.finalizers.contains f then m else { m with finalizers := m.finalizers ++ [f] }

/-- The combined mutator at `Create` lines 719-726: the disks finalizer is
tested on `updatedMachine`, but the VM finalizer is tested on the *outer*
`machine` snapshot, exactly as in the source. -/
def addDisksVM (m : Machine) : Machine :=
  let l := if m.finalizers.contains finalizerDisks then m.finalizers
           else m.finalizers ++ [finalizerDisks]
  let l2 := if m.finalizers.contains finalizerVM then l else l ++ [finalizerVM]
  { m with finalizers := l2 }

/-- Modelled from the spec: `kuberneteshelper.RemoveFinalizer` (outside src/) —
a finalizer is "removed only after that resource is confirmed deleted", i.e.
the named marker is deleted from the Machine's finalizer set. -/
def removeFin (m : Machine) (f : String) : Machine :=
  { m with finalizers := m.finalizers.filter (fun x => x ≠ f) }

/-- Errors surfaced by the lifecycle operations: `cloudprovidererrors.TerminalError`
(with its `MachineStatusError` reason string) versus an opaque retriable error. -/
inductive ProvErr
  | terminal (reason : String) (message : String)
  | retriable (message : String)
deriving DecidableEq, Repr

deriving instance DecidableEq for Except

/-- One externally visible remote call (or one committed finalizer mutation)
issued by a lifecycle operation, in program order. -/
inductive Ev
  | commitFin (f : String)
  | createPubIP (ipv6 : Bool) (uid : String)
  | createNIC (uid : String)
  | createVM (uid : String)
  | deleteVM (uid : String)
  | deleteDisks (uid : String)
  | deleteNICs (uid : String)
  | deleteIPs (uid : String)
  | tagPubIP (ipv6 : Bool) (uid : String)
  | tagNIC (uid : String)
  | tagDisk (name : String) (uid : String)
  | tagVM (uid : String)
deriving DecidableEq, Repr

/-- The slice of the resolved `config` that steers `Create`'s control flow:
`config.AssignPublicIP` and whether `providerCfg.Network.GetIPFamily()` is
dual-stack. -/
structure CreateCfg where
  assignPublicIP : Bool
  dualstack : Bool
deriving DecidableEq, Repr

/-- Outcomes of the remote calls `Create` makes, in program order: the
`getConfig` resolution, client/key construction, the create-or-update calls
and the post-create read-backs. -/
structure CreateEnv where
  configRes : Except String CreateCfg
  vmClientOk : Bool
  sshKeyOk : Bool
  ipv4Ok : Bool
  ipv6Ok : Bool
  nicOk : Bool
  storageOk : Bool
  vmOk : Bool
  getVMOk : Bool
  ipAddrsOk : Bool
  statusOk : Bool
deriving Repr

/-- `Create` from the network-interface step onward: commit the NIC finalizer,
create the NIC, build the VM spec (`getStorageProfile` may fail), commit the
disks+VM finalizers in one update, then issue the VM create-or-update and the
post-create read-backs. -/
def createFromNIC (m : Machine) (tr : List Ev) (env : CreateEnv) :
    Except ProvErr Unit × Machine × List Ev :=
  let m1 := addFin m finalizerNIC
  let tr1 := tr ++ [Ev.commitFin finalizerNIC, Ev.createNIC m1.uid]
  if env.nicOk = false then
    (.error (.retriable "failed to generate main network interface"), m1, tr1)
  else if env.storageOk = false then
    (.error (.retriable "failed to get StorageProfile"), m1, tr1)
  else
    let m2 := addDisksVM m1
    let tr2 := tr1 ++ [Ev.commitFin finalizerDisks, Ev.commitFin finalizerVM, Ev.createVM m2.uid]
    if env.vmOk = false then
      (.error (.retriable "trying to create a VM"), m2, tr2)
    else if env.getVMOk = false then
      (.error (.retriable "failed to retrieve updated data for VM"), m2, tr2)
    else if env.ipAddrsOk = false then
      (.error (.retriable "failed to retrieve IP addresses for VM"), m2, tr2)
    else if env.statusOk = false then
      (.error (.retriable "failed to retrieve status for VM"), m2, tr2)
    else
      (.ok (), m2, tr2)

/-- `provider.Create` (types.go lines 592-761): resolve config (terminal
`InvalidConfiguration` on failure), build clients, then — when
`AssignPublicIP` — commit the public-IP finalizer and create the IPv4 public
IP, additionally creating the IPv6 public IP when dual-stack, and continue
with NIC and VM creation.  Returns the result, the updated Machine and the
trace of issued calls. -/
def Create (m : Machine) (env : CreateEnv) :
    Except ProvErr Unit × Machine × List Ev :=
  match env.configRes with
  | .error e =>
      (.error (.terminal invalidConfigurationMachineError
        ("failed to parse MachineSpec, due to " ++ e)), m, [])
  | .ok cfg =>
    if env.vmClientOk = false then
      (.error (.retriable "failed to create VM client"), m, [])
    else if env.sshKeyOk = false then
      (.error (.retriable "failed to generate ssh key"), m, [])
    else if cfg.assignPublicIP then
      let m1 := addFin m finalizerPublicIP
      let tr1 := [Ev.commitFin finalizerPublicIP, Ev.createPubIP false m.uid]
      if env.ipv4Ok = false then
        (.error (.retriable "failed to create public IP"), m1, tr1)
      else if cfg.dualstack then
        let tr2 := tr1 ++ [Ev.createPubIP true m.uid]
        if env.ipv6Ok = false then
          (.error (.retriable "failed to create public IP"), m1, tr2)
        else
          createFromNIC m1 tr2 env
      else
        createFromNIC m1 tr1 env
    else
      createFromNIC m [] env

/-- Outcome of `p.get(machine)` as observed by `Cleanup`: the instance was
found, the `ErrInstanceNotFound` sentinel, or some other error. -/
inductive GetOutcome
  | found
  | notFound
  | fail
deriving DecidableEq, Repr

/-- Outcomes of the remote calls `Cleanup` makes, in program order. -/
structure CleanupEnv where
  configOk : Bool
  getRes : GetOutcome
  deleteVMOk : Bool
  deleteDisksOk : Bool
  deleteNICsOk : Bool
  deleteIPsOk : Bool
deriving Repr

/-- Modelled from the spec: `util.RemoveFinalizerOnInstanceNotFound` (outside
src/) — per spec section 4.1 step 1, on the not-found sentinel Cleanup still
attempts finalizer removal and "reports done once the instance finalizer is
cleared": the named finalizer is removed and done=true is returned. -/
def removeFinalizerOnInstanceNotFound (f : String) (m : Machine) :
    Except String Bool × Machine :=
  (.ok true, removeFin m f)

/-- `provider.Cleanup` (types.go lines 764-822): parse config, `get` the
instance (not-found takes the `RemoveFinalizerOnInstanceNotFound` path for the
VM finalizer only), then delete VM / disks / NICs / public IPs by Machine-UID,
removing the corresponding finalizer after each confirmed deletion, and
finally return done=true. -/
def Cleanup (m : Machine) (env : CleanupEnv) :
    Except String Bool × Machine × List Ev :=
  if env.configOk = false then
    (.error "failed to parse MachineSpec", m, [])
  else
    match env.getRes with
    | .fail => (.error "failed to get instance", m, [])
    | .notFound =>
        let r := removeFinalizerOnInstanceNotFound finalizerVM m
        (r.1, r.2, [])
    | .found =>
        let tr1 := [Ev.deleteVM m.uid]
        if env.deleteVMOk = false then
          (.error "failed to delete instance", m, tr1)
        else
          let m1 := removeFin m finalizerVM
          let tr2 := tr1 ++ [Ev.deleteDisks m.uid]
          if env.deleteDisksOk = false then
            (.error "failed to remove disks", m1, tr2)
          else
            let m2 := removeFin m1 finalizerDisks
            let tr3 := tr2 ++ [Ev.deleteNICs m.uid]
            if env.deleteNICsOk = false then
              (.error "failed to remove network interfaces", m2, tr3)
            else
              let m3 := removeFin m2 finalizerNIC
              let tr4 := tr3 ++ [Ev.deleteIPs m.uid]
              if env.deleteIPsOk = false then
                (.error "failed to remove public IP addresses", m3, tr4)
              else
                let m4 := removeFin m3 finalizerPublicIP
                (.ok true, m4, tr4)

/-- The backend resources correlated to one Machine, each carrying its
`Machine-UID` tag: the two public IPs, the NIC, the VM, and the managed disks
(name paired with UID tag). -/
structure Backend where
  pubIPUID : String
  pubIPv6UID : String
  nicUID : String
  vmUID : String
  disks : List (String × String)
deriving DecidableEq, Repr

/-- Outcomes of the remote calls `MigrateUID` makes, in program order. -/
structure MigrateEnv where
  configOk : Bool
  vmClientOk : Bool
  ipv6Ok : Bool
  ipv4Ok : Bool
  nicOk : Bool
  disksClientOk : Bool
  getDisksOk : Bool
  diskUpdateOk : Bool
  vmOk : Bool
deriving Repr

/-- Re-tag one disk: `disk.Tags[machineUIDTag] = newUID` applied to the disks
returned by `getDisksByMachineUID(machine.UID)`. -/
def retagDisk (oldUID newUID : String) (d : String × String) : String × String :=
  if d.2 = oldUID then (d.1, newUID) else d

/-- `MigrateUID`, final stage (types.go lines 1167-1183): the VM is re-tagged
with the new UID unconditionally (no finalizer gate). -/
def migrateVMStage (newUID : String) (b : Backend) (t : List Ev) (env : MigrateEnv) :
    Except ProvErr Unit × Backend × List Ev :=
  let t1 := t ++ [Ev.tagVM newUID]
  if env.vmOk = false then
    (.error (.retriable "failed to update UID of the instance"), b, t1)
  else
    (.ok (), { b with vmUID := newUID }, t1)

/-- `MigrateUID`, disks stage (types.go lines 1144-1165): gated on the disks
finalizer; the disks found by the *old* Machine UID are each re-tagged via a
CreateOrUpdate call, aborting on the first failure. -/
def migrateDisksStage (m : Machine) (newUID : String) (b : Backend) (t : List Ev)
    (env : MigrateEnv) : Except ProvErr Unit × Backend × List Ev :=
  if hasFinalizer m finalizerDisks then
    if env.disksClientOk = false then
      (.error (.retriable "failed to get disks client"), b, t)
    else if env.getDisksOk = false then
      (.error (.retriable "failed to get disks"), b, t)
    else
      let matched := b.disks.filter (fun d => d.2 = m.uid)
      if matched.isEmpty then
        migrateVMStage newUID b t env
      else if env.diskUpdateOk = false then
        (.error (.retriable "failed to update UID for disk"), b,
          t ++ [Ev.tagDisk (matched.headD ("", "")).1 newUID])
      else
        migrateVMStage newUID { b with disks := b.disks.map (retagDisk m.uid newUID) }
          (t ++ matched.map (fun d => Ev.tagDisk d.1 newUID)) env
  else
    migrateVMStage newUID b t env

/-- `MigrateUID`, NIC stage (types.go lines 1137-1142): gated on the NIC
finalizer; the NIC create-or-update is re-applied with the new UID. -/
def migrateNICStage (m : Machine) (newUID : String) (b : Backend) (t : List Ev)
    (env : MigrateEnv) : Except ProvErr Unit × Backend × List Ev :=
  if hasFinalizer m finalizerNIC then
    let t1 := t ++ [Ev.tagNIC newUID]
    if env.nicOk = false then
      (.error (.retriable "failed to update UID on main network interface"), b, t1)
    else
      migrateDisksStage m newUID { b with nicUID := newUID } t1 env
  else
    migrateDisksStage m newUID b t env

/-- `provider.MigrateUID` (types.go lines 1102-1184): parse config (terminal
`InvalidConfiguration` on failure), build the VM client, then — in the order
the source issues them — re-apply the public-IPv6 create-or-update (gated on
its finalizer), the public-IPv4 create-or-update (gated on its finalizer), the
NIC, the disks, and finally the VM, each with the `Machine-UID` tag set to the
new UID, aborting on the first failure. -/
def MigrateUID (m : Machine) (newUID : String) (b : Backend) (env : MigrateEnv) :
    Except ProvErr Unit × Backend × List Ev :=
  if env.configOk = false then
    (.error (.terminal invalidConfigurationMachineError "failed to parse MachineSpec"), b, [])
  else if env.vmClientOk = false then
    (.error (.retriable "failed to create VM client"), b, [])
  else if hasFinalizer m finalizerPublicIPv6 then
    let t1 := [Ev.tagPubIP true newUID]
    if env.ipv6Ok = false then
      (.error (.retriable "failed to update UID on public IP"), b, t1)
    else
      let b1 := { b with pubIPv6UID := newUID }
      if hasFinalizer m finalizerPublicIP then
        let t2 := t1 ++ [Ev.tagPubIP false newUID]
        if env.ipv4Ok = false then
          (.error (.retriable "failed to update UID on public IP"), b1, t2)
        else
          migrateNICStage m newUID { b1 with pubIPUID := newUID } t2 env
      else
        migrateNICStage m newUID b1 t1 env
  else if hasFinalizer m finalizerPublicIP then
    let t1 := [Ev.tagPubIP false newUID]
    if env.ipv4Ok = false then
      (.error (.retriable "failed to update UID on public IP"), b, t1)
    else
      migrateNICStage m newUID { b with pubIPUID := newUID } t1 env
  else
    migrateNICStage m newUID b [] env

/-- `instance.Status`, the closed four-value status vocabulary. -/
inductive InstanceStatus
  | unknown
  | creating
  | running
  | deleting
deriving DecidableEq, Repr

/-- The provisioning-status switch of `getVMStatus` (types.go lines 876-884):
empty code and unrecognized codes map to Unknown. -/
def provisioningMap (code : String) : InstanceStatus :=
  if code = "" then .unknown
  else if code = "ProvisioningState/deleting" then .deleting
  else .unknown

/-- The power-status switch of `getVMStatus` (types.go lines 895-905):
empty code and unrecognized codes map to Unknown. -/
def powerMap (code : String) : InstanceStatus :=
  if code = "" then .unknown
  else if code = "PowerState/running" then .running
  else if code = "PowerState/starting" then .creating
  else .unknown

/-- The payload mapping of `getVMStatus` (types.go lines 864-906), applied once
the `InstanceView` call has succeeded.  The payload is `iv.Statuses`: an
optional list of status entries, each with an optional `Code` string.  A `none`
result marks the places where the Go code indexes the slice out of range and
panics: `len(*iv.Statuses) < 2` is followed by an unguarded `(*iv.Statuses)[0]`. -/
def getVMStatus (statuses : Option (List (Option String))) : Option InstanceStatus :=
  match statuses with
  | none => some .unknown
  | some l =>
    if l.length < 2 then
      match l.get? 0 with
      | none => none
      | some none => some .unknown
      | some (some code) => some (provisioningMap code)
    else
      match l.get? 1 with
      | none => none
      | some none => some .unknown
      | some (some code) => some (powerMap code)

/-- `v1.NodeAddressType` as used by the address map. -/
inductive NodeAddressType
  | externalIP
  | internalIP
deriving DecidableEq, Repr

/-- One entry of `vm.NetworkProfile.NetworkInterfaces`: only the `ID` field is
read by `getVMIPAddresses`. -/
structure NetIface where
  id : Option String
deriving DecidableEq, Repr

/-- `vm.VirtualMachineProperties.NetworkProfile` with its optional
`NetworkInterfaces` slice. -/
structure NetProfile where
  networkInterfaces : Option (List NetIface)
deriving DecidableEq, Repr

/-- `vm.VirtualMachineProperties` restricted to the field `getVMIPAddresses`
dereferences. -/
structure VMProps where
  networkProfile : Option NetProfile
deriving DecidableEq, Repr

/-- `compute.VirtualMachine` restricted to the fields `getVMIPAddresses`
dereferences: the optional properties holding the optional network profile. -/
structure AzVM where
  properties : Option VMProps
deriving DecidableEq, Repr

/-- The interface loop of `getVMIPAddresses` (types.go lines 423-434).
`getNIC` stands for `getNICIPAddresses` and returns the address map together
with an optional error, mirroring Go's multi-value return.  `nis` is the value
of `vm.NetworkProfile.NetworkInterfaces` that the post-call check re-tests —
the source tests that field instead of the returned `err`. -/
def getVMIPAddressesLoop (getNIC : String → List (String × NodeAddressType) × Option String)
    (nis : Option (List NetIface)) :
    Nat → List NetIface → List (String × NodeAddressType) →
    Except String (List (String × NodeAddressType))
  | _, [], acc => .ok acc
  | n, iface :: rest, _acc =>
    match iface.id with
    | none => .error ("interface " ++ toString n ++ " has no ID")
    | some id =>
      if id.length = 0 then .error ("interface " ++ toString n ++ " has no ID")
      else
        let ifaceName := (id.splitOn "/").getLastD ""
        let res := getNIC ifaceName
        if nis = none then
          .error ("failed to get addresses for interface " ++ ifaceName)
        else
          getVMIPAddressesLoop getNIC nis (n + 1) rest res.1

/-- `getVMIPAddresses` (types.go lines 405-437): dereference the nested
optional fields, then iterate the interfaces, overwriting the address map with
each `getNICIPAddresses` result; the error of that call is checked only through
the (unchanged) `vm.NetworkProfile.NetworkInterfaces` field. -/
def getVMIPAddresses (getNIC : String → List (String × NodeAddressType) × Option String)
    (vm : AzVM) : Except String (List (String × NodeAddressType)) :=
  match vm.properties with
  | none => .error "machine is missing properties"
  | some props =>
    match props.networkProfile with
    | none => .error "machine has no network profile"
    | some np =>
      match np.networkInterfaces with
      | none => .error "machine has no network interfaces data"
      | some ifaces => getVMIPAddressesLoop getNIC np.networkInterfaces 0 ifaces []

/-- Go's `strings.Replace(s, "https://", "", -1)`: remove every leftmost
non-overlapping occurrence of `https://`. -/
def stripHTTPSChars : List Char → List Char
  | 'h' :: 't' :: 't' :: 'p' :: 's' :: ':' :: '/' :: '/' :: rest => stripHTTPSChars rest
  | c :: rest => c :: stripHTTPSChars rest
  | [] => []

/-- String wrapper for `stripHTTPSChars`. -/
def stripHTTPS (s : String) : String :=
  ⟨stripHTTPSChars s.data⟩

/-- One entry of the kubeconfig's `Clusters` map: the cluster name and its
`Server` address. -/
structure NamedCluster where
  name : String
  server : String
deriving DecidableEq, Repr

/-- `GetServerAddressFromKubeconfig` (helper.go lines 33-44): error unless the
`Clusters` map has exactly one entry; otherwise the `range` loop returns on the
first entry with `https://` stripped from its `Server`; the trailing
"no server address found" return is reached only when the loop body never runs. -/
def GetServerAddressFromKubeconfig (clusters : List NamedCluster) : Except String String :=
  if clusters.length ≠ 1 then
    .error "kubeconfig does not contain exactly one cluster, can not extract server address"
  else
    match clusters.head? with
    | some c => .ok (stripHTTPS c.server)
    | none => .error "no server address found"

/-- A secret reference of a `ConfigVarString`. -/
structure SecretKeyRef where
  namespaceName : String
  name : String
  key : String
deriving DecidableEq, Repr

/-- `providerconfigtypes.ConfigVarString`: an inline literal value or a secret
reference. -/
structure ConfigVarString where
  value : String
  secretKeyRef : Option SecretKeyRef
deriving DecidableEq, Repr

/-- Modelled from the spec: `ConfigVarResolver.GetConfigVarStringValueOrEnv`
(the resolver lives outside src/) — "Resolution precedence: literal value if
present; otherwise secret lookup", and the per-field environment fallback is
"consulted only when the corresponding config field is unset".  `secrets` is
the secret store, `env` the process environment. -/
def getConfigVarStringValueOrEnv (secrets : SecretKeyRef → Option String)
    (env : String → Option String) (cv : ConfigVarString) (envVarName : String) :
    Except String String :=
  if cv.value ≠ "" then .ok cv.value
  else
    match cv.secretKeyRef with
    | some ref =>
      match secrets ref with
      | some v => .ok v
      | none => .error "secret not found"
    | none => .ok ((env envVarName).getD "")

/-- Modelled from the spec: `clusterv1alpha1.MachineSpec` (outside src/) — the
Machine's spec: identity metadata, the opaque ProviderSpec blob and the kubelet
version. -/
structure MachineSpec where
  name : String
  providerSpecRaw : Option String
  kubeletVersion : String
deriving DecidableEq, Repr

/-- `provider.AddDefaults` (types.go lines 546-548): `return spec, nil` — a
pure function returning its input unchanged with a nil error. -/
def AddDefaults (spec : MachineSpec) : MachineSpec × Option String :=
  (spec, none)

/-- The all-calls-succeed environment for `MigrateUID`. -/
def allOkMigrateEnv : MigrateEnv :=
  ⟨true, true, true, true, true, true, true, true, true⟩

/-- The backend state after one successful `MigrateUID m u`: each resource
whose finalizer is present on `m` (and, unconditionally, the VM) carries the
new UID; disks are re-tagged from the old Machine UID. -/
def backendAfter (m : Machine) (u : String) (b : Backend) : Backend :=
  { pubIPUID := if hasFinalizer m finalizerPublicIP then u else b.pubIPUID
    pubIPv6UID := if hasFinalizer m finalizerPublicIPv6 then u else b.pubIPv6UID
    nicUID := if hasFinalizer m finalizerNIC then u else b.nicUID
    vmUID := u
    disks := if hasFinalizer m finalizerDisks then b.disks.map (retagDisk m.uid u) else b.disks }

/-- The trace of a successful `MigrateUID m u`: the re-tag calls the source
issues, in its order — public IPv6 first, then public IPv4, NIC, disks, and
the VM last (unconditionally). -/
def traceAfter (m : Machine) (u : String) (b : Backend) : List Ev :=
  (if hasFinalizer m finalizerPublicIPv6 then [Ev.tagPubIP true u] else []) ++
  (if hasFinalizer m finalizerPublicIP then [Ev.tagPubIP false u] else []) ++
  (if hasFinalizer m finalizerNIC then [Ev.tagNIC u] else []) ++
  (if hasFinalizer m finalizerDisks then
    (b.disks.filter (fun d => d.2 = m.uid)).map (fun d => Ev.tagDisk d.1 u) else []) ++
  [Ev.tagVM u]

/-- C10: `AddDefaults` is the pure identity on the spec with a nil error, hence
idempotent: applying it twice equals applying it once. -/
theorem c10_adddefaults_idempotent (spec : MachineSpec) :
    AddDefaults spec = (spec, none) ∧
    AddDefaults (AddDefaults spec).1 = AddDefaults spec :=
  ⟨rfl, rfl⟩

/-- C6: when provider configuration resolution fails, `Create` returns a
`TerminalError` with reason `InvalidConfiguration`, leaving the Machine
untouched and issuing no backend call and no finalizer commit. -/
theorem c6_create_terminal_on_bad_config (m : Machine) (env : CreateEnv) (e : String)
    (h : env.configRes = .error e) :
    Create m env =
      (.error (.terminal invalidConfigurationMachineError
        ("failed to parse MachineSpec, due to " ++ e)), m, []) := by
  obtain ⟨cr, a1, a2, a3, a4, a5, a6, a7, a8, a9, a10⟩ := env
  simp only at h
  subst h
  rfl

/-- C6 witness: a concrete Machine whose config fails to resolve. -/
theorem c6_create_terminal_on_bad_config_witness :
    Create ⟨"m0", "uid0", []⟩ ⟨.error "boom", true, true, true, true, true, true, true, true, true, true⟩ =
      (.error (.terminal "InvalidConfiguration" "failed to parse MachineSpec, due to boom"),
        ⟨"m0", "uid0", []⟩, []) :=
  c6_create_terminal_on_bad_config ⟨"m0", "uid0", []⟩ _ "boom" rfl

/-- C3: the status-payload mapping of `getVMStatus` hits the out-of-range
index (modelled as `none`, the Go panic) exactly when the backend returns a
non-nil but empty status list; every other payload — nil list, missing code,
unrecognized code — maps to one of the four statuses, unrecognized codes to
Unknown, without an error. -/
theorem c3_getVMStatus_total_except_empty (s : Option (List (Option String))) :
    getVMStatus s = none ↔ s = some [] := by
  cases s with
  | none => simp [getVMStatus]
  | some l =>
    cases l with
    | nil => simp [getVMStatus]
    | cons a rest =>
      cases rest with
      | nil =>
        cases a <;> simp [getVMStatus]
      | cons b rest2 =>
        have h2 : ¬ (rest2.length + 1 + 1 < 2) := by omega
        cases b <;> simp [getVMStatus, h2]

/-- C9: `GetServerAddressFromKubeconfig` errors exactly when the Clusters map
does not hold exactly one entry; on a singleton it returns the sole Server
with every `https://` occurrence removed and no error; its result does not
depend on iteration order; and its trailing "no server address found" branch
is unreachable. -/
theorem c9_server_address :
    (∀ cs : List NamedCluster,
      (∃ e, GetServerAddressFromKubeconfig cs = .error e) ↔ cs.length ≠ 1) ∧
    (∀ c : NamedCluster,
      GetServerAddressFromKubeconfig [c] = .ok (stripHTTPS c.server)) ∧
    (∀ cs : List NamedCluster,
      GetServerAddressFromKubeconfig cs ≠ .error "no server address found") ∧
    (∀ cs cs2 : List NamedCluster, cs.Perm cs2 →
      GetServerAddressFromKubeconfig cs = GetServerAddressFromKubeconfig cs2) := by
  refine ⟨?_, ?_, ?_, ?_⟩
  · intro cs
    by_cases h : cs.length = 1
    · obtain ⟨c, rfl⟩ := List.length_eq_one.mp h
      simp [GetServerAddressFromKubeconfig]
    · simp [GetServerAddressFromKubeconfig, h]
  · intro c
    simp [GetServerAddressFromKubeconfig]
  · intro cs
    by_cases h : cs.length = 1
    · obtain ⟨c, rfl⟩ := List.length_eq_one.mp h
      simp [GetServerAddressFromKubeconfig]
    · simp only [GetServerAddressFromKubeconfig, if_pos h]
      intro hcontra
      have : "kubeconfig does not contain exactly one cluster, can not extract server address" =
          "no server address found" := by
        exact Except.error.inj hcontra
      simp at this
  · intro cs cs2 hperm
    by_cases h : cs.length = 1
    · obtain ⟨c, rfl⟩ := List.length_eq_one.mp h
      have h2 : cs2 = [c] := List.perm_singleton.mp hperm.symm
      rw [h2]
    · have h2 : cs2.length ≠ 1 := by rw [← hperm.length_eq]; exact h
      simp [GetServerAddressFromKubeconfig, h, h2]

/-- C9 witness: iteration-order independence on a two-entry map (both error),
and a singleton whose Server holds two `https://` occurrences, both removed. -/
theorem c9_server_address_witness :
    GetServerAddressFromKubeconfig [⟨"c1", "x"⟩, ⟨"c2", "y"⟩] =
      GetServerAddressFromKubeconfig [⟨"c2", "y"⟩, ⟨"c1", "x"⟩] ∧
    GetServerAddressFromKubeconfig [⟨"c", "https://host:6443/https://"⟩] = .ok "host:6443/" := by
  constructor
  · exact c9_server_address.2.2.2 _ _
      (List.Perm.swap (⟨"c2", "y"⟩ : NamedCluster) (⟨"c1", "x"⟩ : NamedCluster) [])
  · have h := c9_server_address.2.1 ⟨"c", "https://host:6443/https://"⟩
    rw [h]
    rfl

/-- C7: resolution precedence of a configuration value — the inline literal
wins when present; with an empty literal a present secret reference is
resolved from the secret store even when the environment fallback is set; the
environment fallback is consulted only when the field is unset (no literal, no
secret reference). -/
theorem c7_config_precedence (secrets : SecretKeyRef → Option String)
    (env : String → Option String) (cv : ConfigVarString) (n : String) :
    (cv.value ≠ "" → getConfigVarStringValueOrEnv secrets env cv n = .ok cv.value) ∧
    (∀ ref v, cv.value = "" → cv.secretKeyRef = some ref → secrets ref = some v →
      getConfigVarStringValueOrEnv secrets env cv n = .ok v) ∧
    (cv.value = "" → cv.secretKeyRef = none →
      getConfigVarStringValueOrEnv secrets env cv n = .ok ((env n).getD "")) := by
  refine ⟨?_, ?_, ?_⟩
  · intro h
    simp [getConfigVarStringValueOrEnv, h]
  · intro ref v h1 h2 h3
    simp [getConfigVarStringValueOrEnv, h1, h2, h3]
  · intro h1 h2
    simp [getConfigVarStringValueOrEnv, h1, h2]

/-- C7 witness: empty literal, present secret, set environment fallback — the
secret's value is returned, not the environment variable's. -/
theorem c7_config_precedence_witness :
    getConfigVarStringValueOrEnv
      (fun r => if r = ⟨"kube-system", "machine-creds", "tenantID"⟩ then some "secret-value" else none)
      (fun s => if s = "AZURE_TENANT_ID" then some "env-value" else none)
      ⟨"", some ⟨"kube-system", "machine-creds", "tenantID"⟩⟩ "AZURE_TENANT_ID" =
      .ok "secret-value" := by
  exact (c7_config_precedence _ _ _ _).2.1 ⟨"kube-system", "machine-creds", "tenantID"⟩
    "secret-value" rfl rfl (by simp)

/-- The interface loop never propagates the error returned by the per-NIC
lookup: with the interfaces field non-nil, every iteration takes the
re-tested-field branch and continues, whatever `getNIC` returned. -/
theorem getVMIPAddressesLoop_ok (getNIC : String → List (String × NodeAddressType) × Option String)
    (l0 : List NetIface) :
    ∀ (ifaces : List NetIface) (n : Nat) (acc : List (String × NodeAddressType)),
      (∀ i ∈ ifaces, ∃ s, i.id = some s ∧ s.length ≠ 0) →
      ∃ r, getVMIPAddressesLoop getNIC (some l0) n ifaces acc = .ok r := by
  intro ifaces
  induction ifaces with
  | nil => intro n acc _; exact ⟨acc, rfl⟩
  | cons i rest ih =>
    intro n acc h
    obtain ⟨s, hid, hlen⟩ := h i (List.mem_cons_self i rest)
    have hrest : ∀ j ∈ rest, ∃ s, j.id = some s ∧ s.length ≠ 0 :=
      fun j hj => h j (List.mem_cons_of_mem i hj)
    simp only [getVMIPAddressesLoop, hid]
    rw [if_neg hlen]
    simp only [reduceCtorEq, if_false]
    exact ih (n + 1) (getNIC ((s.splitOn "/").getLastD "")).1 hrest

/-- C8: when every interface of the VM has a valid (non-nil, non-empty) ID,
`getVMIPAddresses` returns a nil error for every per-NIC lookup oracle —
including oracles that report an error — because the post-call check re-tests
the unchanged `NetworkInterfaces` field instead of the returned error. -/
theorem c8_vm_ip_error_swallowed
    (getNIC : String → List (String × NodeAddressType) × Option String)
    (ifaces : List NetIface)
    (h : ∀ i ∈ ifaces, ∃ s, i.id = some s ∧ s.length ≠ 0) :
    ∃ r, getVMIPAddresses getNIC ⟨some ⟨some ⟨some ifaces⟩⟩⟩ = .ok r := by
  simp only [getVMIPAddresses]
  exact getVMIPAddressesLoop_ok getNIC ifaces ifaces 0 [] h

/-- C8 witness: a single-interface VM whose per-NIC lookup fails (returns an
empty map and a non-nil error); `getVMIPAddresses` still reports success with
the empty map. -/
theorem c8_vm_ip_error_swallowed_witness :
    (∃ r, getVMIPAddresses (fun _ => ([], some "boom"))
      ⟨some ⟨some ⟨some [⟨some "a/b/nic0"⟩]⟩⟩⟩ = .ok r) ∧
    getVMIPAddresses (fun _ => ([], some "boom"))
      ⟨some ⟨some ⟨some [⟨some "a/b/nic0"⟩]⟩⟩⟩ = .ok [] := by
  constructor
  · exact c8_vm_ip_error_swallowed (fun _ => ([], some "boom")) [⟨some "a/b/nic0"⟩]
      (by intro i hi
          simp only [List.mem_singleton] at hi
          subst hi
          exact ⟨"a/b/nic0", rfl, by decide⟩)
  · rfl

/-- C4 counterexample: the backend instance is already gone and the Machine
still carries the public-IP, NIC and disks finalizers; `Cleanup` reports
done=true but three lifecycle finalizers remain — not zero as claimed. -/
theorem c4_notfound_counterexample :
    (Cleanup ⟨"m0", "uid0", [finalizerPublicIP, finalizerNIC, finalizerDisks, finalizerVM]⟩
       ⟨true, .notFound, true, true, true, true⟩).1 = .ok true ∧
    (Cleanup ⟨"m0", "uid0", [finalizerPublicIP, finalizerNIC, finalizerDisks, finalizerVM]⟩
       ⟨true, .notFound, true, true, true, true⟩).2.1.finalizers =
      [finalizerPublicIP, finalizerNIC, finalizerDisks] ∧
    [finalizerPublicIP, finalizerNIC, finalizerDisks] ≠ ([] : List String) := by
  decide

/-- C4 (amended): when `get` reports the not-found sentinel, `Cleanup` does not
fail — it returns done=true with no further backend call — but it removes only
the VM finalizer, leaving any other lifecycle finalizers on the Machine. -/
theorem c4_notfound_amended (m : Machine) (env : CleanupEnv)
    (h1 : env.configOk = true) (h2 : env.getRes = .notFound) :
    Cleanup m env = (.ok true, removeFin m finalizerVM, []) := by
  obtain ⟨c, g, d1, d2, d3, d4⟩ := env
  simp only at h1 h2
  subst h1
  subst h2
  rfl

/-- C4 witness: a Machine carrying only the VM finalizer ends cleanup with
done=true and zero finalizers. -/
theorem c4_notfound_amended_witness :
    Cleanup ⟨"w4", "u4", [finalizerVM]⟩ ⟨true, .notFound, false, false, false, false⟩ =
      (.ok true, ⟨"w4", "u4", []⟩, []) := by
  have h := c4_notfound_amended ⟨"w4", "u4", [finalizerVM]⟩
    ⟨true, .notFound, false, false, false, false⟩ rfl rfl
  rw [h]
  decide

/-- C2 counterexample: first `Cleanup` deletes the VM, removes its finalizer
and fails deleting the disks; the next `Cleanup` sees the VM gone (not-found
path), returns done=true, issues no deletion call and removes none of the
three remaining finalizers — refuting both "done=true only once zero
finalizers remain" and "a subsequent call removes exactly the remaining
finalizers". -/
theorem c2_cleanup_counterexample :
    (Cleanup ⟨"m0", "uid0", [finalizerPublicIP, finalizerNIC, finalizerDisks, finalizerVM]⟩
       ⟨true, .found, true, false, true, true⟩).1 = .error "failed to remove disks" ∧
    (Cleanup (Cleanup ⟨"m0", "uid0", [finalizerPublicIP, finalizerNIC, finalizerDisks, finalizerVM]⟩
       ⟨true, .found, true, false, true, true⟩).2.1
       ⟨true, .notFound, true, true, true, true⟩).1 = .ok true ∧
    (Cleanup (Cleanup ⟨"m0", "uid0", [finalizerPublicIP, finalizerNIC, finalizerDisks, finalizerVM]⟩
       ⟨true, .found, true, false, true, true⟩).2.1
       ⟨true, .notFound, true, true, true, true⟩).2.1.finalizers =
      [finalizerPublicIP, finalizerNIC, finalizerDisks] ∧
    (Cleanup (Cleanup ⟨"m0", "uid0", [finalizerPublicIP, finalizerNIC, finalizerDisks, finalizerVM]⟩
       ⟨true, .found, true, false, true, true⟩).2.1
       ⟨true, .notFound, true, true, true, true⟩).2.2 = [] := by
  decide

/-- C2 (amended): on the found path, `Cleanup` deletes VM, disks, NICs and
public IPs in reverse creation order, removing exactly those four finalizers —
never the PublicIPv6 finalizer — and returns done=true after the last step; a
failure at any step returns an error leaving the finalizers of all later steps
untouched; on the not-found path it returns done=true removing only the VM
finalizer, without attempting the remaining deletions. -/
theorem c2_cleanup_amended (m : Machine) (env : CleanupEnv) (hc : env.configOk = true) :
    (env.getRes = .notFound → Cleanup m env = (.ok true, removeFin m finalizerVM, [])) ∧
    (env.getRes = .found → env.deleteVMOk = false →
      Cleanup m env = (.error "failed to delete instance", m, [Ev.deleteVM m.uid])) ∧
    (env.getRes = .found → env.deleteVMOk = true → env.deleteDisksOk = false →
      Cleanup m env = (.error "failed to remove disks", removeFin m finalizerVM,
        [Ev.deleteVM m.uid, Ev.deleteDisks m.uid])) ∧
    (env.getRes = .found → env.deleteVMOk = true → env.deleteDisksOk = true →
      env.deleteNICsOk = false →
      Cleanup m env = (.error "failed to remove network interfaces",
        removeFin (removeFin m finalizerVM) finalizerDisks,
        [Ev.deleteVM m.uid, Ev.deleteDisks m.uid, Ev.deleteNICs m.uid])) ∧
    (env.getRes = .found → env.deleteVMOk = true → env.deleteDisksOk = true →
      env.deleteNICsOk = true → env.deleteIPsOk = false →
      Cleanup m env = (.error "failed to remove public IP addresses",
        removeFin (removeFin (removeFin m finalizerVM) finalizerDisks) finalizerNIC,
        [Ev.deleteVM m.uid, Ev.deleteDisks m.uid, Ev.deleteNICs m.uid, Ev.deleteIPs m.uid])) ∧
    (env.getRes = .found → env.deleteVMOk = true → env.deleteDisksOk = true →
      env.deleteNICsOk = true → env.deleteIPsOk = true →
      Cleanup m env = (.ok true,
        removeFin (removeFin (removeFin (removeFin m finalizerVM) finalizerDisks) finalizerNIC)
          finalizerPublicIP,
        [Ev.deleteVM m.uid, Ev.deleteDisks m.uid, Ev.deleteNICs m.uid, Ev.deleteIPs m.uid])) := by
  obtain ⟨c, g, d1, d2, d3, d4⟩ := env
  simp only at hc
  subst hc
  refine ⟨?_, ?_, ?_, ?_, ?_, ?_⟩
  · intro hg
    simp only at hg
    subst hg
    rfl
  · intro hg h1
    simp only at hg h1
    subst hg
    subst h1
    rfl
  · intro hg h1 h2
    simp only at hg h1 h2
    subst hg
    subst h1
    subst h2
    rfl
  · intro hg h1 h2 h3
    simp only at hg h1 h2 h3
    subst hg
    subst h1
    subst h2
    subst h3
    rfl
  · intro hg h1 h2 h3 h4
    simp only at hg h1 h2 h3 h4
    subst hg
    subst h1
    subst h2
    subst h3
    subst h4
    rfl
  · intro hg h1 h2 h3 h4
    simp only at hg h1 h2 h3 h4
    subst hg
    subst h1
    subst h2
    subst h3
    subst h4
    rfl

/-- C2 witness: a fully successful cleanup of a Machine that also carries the
PublicIPv6 finalizer — done=true is returned while that finalizer remains. -/
theorem c2_cleanup_amended_witness :
    Cleanup ⟨"w2", "u2", [finalizerPublicIPv6, finalizerPublicIP, finalizerNIC,
        finalizerDisks, finalizerVM]⟩ ⟨true, .found, true, true, true, true⟩ =
      (.ok true, ⟨"w2", "u2", [finalizerPublicIPv6]⟩,
       [Ev.deleteVM "u2", Ev.deleteDisks "u2", Ev.deleteNICs "u2", Ev.deleteIPs "u2"]) := by
  have h := (c2_cleanup_amended ⟨"w2", "u2", [finalizerPublicIPv6, finalizerPublicIP,
    finalizerNIC, finalizerDisks, finalizerVM]⟩ ⟨true, .found, true, true, true, true⟩
    rfl).2.2.2.2.2 rfl rfl rfl rfl rfl
  rw [h]
  decide

/-- The tail of `Create` never commits the PublicIPv6 finalizer: the only
finalizer commits it issues are NIC, Disks and VM. -/
theorem createFromNIC_no_ipv6_commit (m : Machine) (tr : List Ev) (env : CreateEnv)
    (h : Ev.commitFin finalizerPublicIPv6 ∉ tr) :
    Ev.commitFin finalizerPublicIPv6 ∉ (createFromNIC m tr env).2.2 := by
  simp only [createFromNIC]
  split_ifs <;>
    simp_all [finalizerPublicIPv6, finalizerNIC, finalizerDisks, finalizerVM]

/-- No run of `Create` ever commits the PublicIPv6 finalizer to the Machine. -/
theorem create_no_ipv6_commit (m : Machine) (env : CreateEnv) :
    Ev.commitFin finalizerPublicIPv6 ∉ (Create m env).2.2 := by
  simp only [Create]
  cases hcr : env.configRes with
  | error e => simp
  | ok cfg =>
    obtain ⟨ap, ds⟩ := cfg
    cases ap <;> cases ds <;>
      split_ifs <;>
        first
          | exact createFromNIC_no_ipv6_commit _ _ _
              (by simp [finalizerPublicIPv6, finalizerPublicIP])
          | simp [finalizerPublicIPv6, finalizerPublicIP]

/-- C1 counterexample: a fully successful dual-stack `Create` with
AssignPublicIP=true on a fresh Machine creates the IPv6 public IP but never
commits a PublicIPv6 finalizer, and the finalizer set it leaves is not the
claimed `[PublicIP, PublicIPv6, NIC, Disks, VM]`. -/
theorem c1_create_counterexample :
    (Create ⟨"m0", "uid0", []⟩
       ⟨.ok ⟨true, true⟩, true, true, true, true, true, true, true, true, true, true⟩).1 = .ok () ∧
    (Create ⟨"m0", "uid0", []⟩
       ⟨.ok ⟨true, true⟩, true, true, true, true, true, true, true, true, true, true⟩).2.1.finalizers ≠
      [finalizerPublicIP, finalizerPublicIPv6, finalizerNIC, finalizerDisks, finalizerVM] ∧
    Ev.createPubIP true "uid0" ∈
      (Create ⟨"m0", "uid0", []⟩
        ⟨.ok ⟨true, true⟩, true, true, true, true, true, true, true, true, true, true⟩).2.2 ∧
    Ev.commitFin finalizerPublicIPv6 ∉
      (Create ⟨"m0", "uid0", []⟩
        ⟨.ok ⟨true, true⟩, true, true, true, true, true, true, true, true, true, true⟩).2.2 := by
  decide

/-- C1 (amended): in a successful dual-stack Create with AssignPublicIP=true
on a fresh Machine, each committed finalizer is persisted before the
corresponding create-or-update call — PublicIP before the IPv4 create, NIC
before the NIC create, Disks and VM before the VM create — but the IPv6
public-IP create is issued with no finalizer of its own (none is ever
committed by any run of Create), and the finalizer set after success is
exactly `[PublicIP, NIC, Disks, VM]`. -/
theorem c1_create_finalizers_amended :
    (∀ (name uid : String) (env : CreateEnv),
      env.configRes = .ok ⟨true, true⟩ → env.vmClientOk = true → env.sshKeyOk = true →
      env.ipv4Ok = true → env.ipv6Ok = true → env.nicOk = true → env.storageOk = true →
      env.vmOk = true → env.getVMOk = true → env.ipAddrsOk = true → env.statusOk = true →
      Create ⟨name, uid, []⟩ env =
        (.ok (), ⟨name, uid, [finalizerPublicIP, finalizerNIC, finalizerDisks, finalizerVM]⟩,
         [Ev.commitFin finalizerPublicIP, Ev.createPubIP false uid, Ev.createPubIP true uid,
          Ev.commitFin finalizerNIC, Ev.createNIC uid,
          Ev.commitFin finalizerDisks, Ev.commitFin finalizerVM, Ev.createVM uid])) ∧
    (∀ (m : Machine) (env : CreateEnv),
      Ev.commitFin finalizerPublicIPv6 ∉ (Create m env).2.2) := by
  constructor
  · intro name uid env hc h1 h2 h3 h4 h5 h6 h7 h8 h9 h10
    obtain ⟨cr, a1, a2, a3, a4, a5, a6, a7, a8, a9, a10⟩ := env
    simp only at hc h1 h2 h3 h4 h5 h6 h7 h8 h9 h10
    subst hc
    subst h1
    subst h2
    subst h3
    subst h4
    subst h5
    subst h6
    subst h7
    subst h8
    subst h9
    subst h10
    rfl
  · exact create_no_ipv6_commit

/-- C1 witness: the amended statement instantiated on a concrete machine and
an all-success dual-stack environment. -/
theorem c1_create_finalizers_amended_witness :
    Create ⟨"w1", "u1", []⟩
      ⟨.ok ⟨true, true⟩, true, true, true, true, true, true, true, true, true, true⟩ =
      (.ok (), ⟨"w1", "u1", [finalizerPublicIP, finalizerNIC, finalizerDisks, finalizerVM]⟩,
       [Ev.commitFin finalizerPublicIP, Ev.createPubIP false "u1", Ev.createPubIP true "u1",
        Ev.commitFin finalizerNIC, Ev.createNIC "u1",
        Ev.commitFin finalizerDisks, Ev.commitFin finalizerVM, Ev.createVM "u1"]) :=
  c1_create_finalizers_amended.1 "w1" "u1"
    ⟨.ok ⟨true, true⟩, true, true, true, true, true, true, true, true, true, true⟩
    rfl rfl rfl rfl rfl rfl rfl rfl rfl rfl rfl

/-- Re-tagging a disk twice with the same old/new UID pair equals once. -/
theorem retag_retag (a u : String) (d : String × String) :
    retagDisk a u (retagDisk a u d) = retagDisk a u d := by
  obtain ⟨n, t⟩ := d
  by_cases h : t = a <;> by_cases h2 : u = a <;> simp [retagDisk, h, h2]

/-- Re-tagging a disk list twice with the same pair equals once. -/
theorem map_retag_idem (a u : String) (l : List (String × String)) :
    (l.map (retagDisk a u)).map (retagDisk a u) = l.map (retagDisk a u) := by
  induction l with
  | nil => rfl
  | cons d rest ih => simp [retag_retag, ih]

/-- When no disk carries the old UID, re-tagging is the identity. -/
theorem map_retag_of_no_match (a u : String) (l : List (String × String))
    (h : ∀ d ∈ l, d.2 ≠ a) : l.map (retagDisk a u) = l := by
  induction l with
  | nil => rfl
  | cons d rest ih =>
    have hd := h d (List.mem_cons_self d rest)
    simp [retagDisk, hd, ih (fun x hx => h x (List.mem_cons_of_mem d hx))]

/-- Evaluation of the final `MigrateUID` stage under the all-success
environment. -/
theorem vmStage_allOk (u : String) (b : Backend) (t : List Ev) :
    migrateVMStage u b t ⟨true, true, true, true, true, true, true, true, true⟩ =
      (.ok (), { b with vmUID := u }, t ++ [Ev.tagVM u]) :=
  rfl

/-- Evaluation of the disks stage under the all-success environment. -/
theorem disksStage_allOk (m : Machine) (u : String) (b : Backend) (t : List Ev) :
    migrateDisksStage m u b t ⟨true, true, true, true, true, true, true, true, true⟩ =
      (.ok (),
       { b with
          vmUID := u
          disks := if hasFinalizer m finalizerDisks = true then
            b.disks.map (retagDisk m.uid u) else b.disks },
       t ++ (if hasFinalizer m finalizerDisks = true then
          (b.disks.filter (fun d => d.2 = m.uid)).map (fun d => Ev.tagDisk d.1 u) else []) ++
        [Ev.tagVM u]) := by
  by_cases hd : hasFinalizer m finalizerDisks = true
  · cases hfe : b.disks.filter (fun d => d.2 = m.uid) with
    | nil =>
      have hmem : ∀ d ∈ b.disks, d.2 ≠ m.uid := by
        intro d hdm hEq
        have hin : d ∈ b.disks.filter (fun d => d.2 = m.uid) :=
          List.mem_filter.mpr ⟨hdm, by simp [hEq]⟩
        rw [hfe] at hin
        simp at hin
      simp [migrateDisksStage, hd, hfe, vmStage_allOk,
        map_retag_of_no_match m.uid u b.disks hmem]
    | cons x xs =>
      simp [migrateDisksStage, hd, hfe, vmStage_allOk, List.append_assoc]
  · simp [migrateDisksStage, hd, vmStage_allOk]

/-- Evaluation of the NIC stage under the all-success environment. -/
theorem nicStage_allOk (m : Machine) (u : String) (b : Backend) (t : List Ev) :
    migrateNICStage m u b t ⟨true, true, true, true, true, true, true, true, true⟩ =
      (.ok (),
       { b with
          nicUID := if hasFinalizer m finalizerNIC = true then u else b.nicUID
          vmUID := u
          disks := if hasFinalizer m finalizerDisks = true then
            b.disks.map (retagDisk m.uid u) else b.disks },
       t ++ (if hasFinalizer m finalizerNIC = true then [Ev.tagNIC u] else []) ++
        (if hasFinalizer m finalizerDisks = true then
          (b.disks.filter (fun d => d.2 = m.uid)).map (fun d => Ev.tagDisk d.1 u) else []) ++
        [Ev.tagVM u]) := by
  by_cases hn : hasFinalizer m finalizerNIC = true <;>
    simp [migrateNICStage, hn, disksStage_allOk, List.append_assoc]

/-- Under the all-success environment, `MigrateUID` succeeds and produces the
backend/trace described by `backendAfter` and `traceAfter`. -/
theorem migrate_allOk (m : Machine) (u : String) (b : Backend) :
    MigrateUID m u b allOkMigrateEnv = (.ok (), backendAfter m u b, traceAfter m u b) := by
  by_cases h6 : hasFinalizer m finalizerPublicIPv6 = true <;>
    by_cases h4 : hasFinalizer m finalizerPublicIP = true <;>
      simp [MigrateUID, allOkMigrateEnv, h6, h4, nicStage_allOk,
        backendAfter, traceAfter, List.append_assoc]

/-- Applying the post-migration backend transformation twice with the same new
UID equals applying it once. -/
theorem backendAfter_idem (m : Machine) (u : String) (b : Backend) :
    backendAfter m u (backendAfter m u b) = backendAfter m u b := by
  by_cases h6 : hasFinalizer m finalizerPublicIPv6 = true <;>
    by_cases h4 : hasFinalizer m finalizerPublicIP = true <;>
      by_cases hn : hasFinalizer m finalizerNIC = true <;>
        by_cases hd : hasFinalizer m finalizerDisks = true <;>
          simp [backendAfter, h6, h4, hn, hd, map_retag_idem, retag_retag]

/-- C5 counterexample: a Machine holding the PublicIP, PublicIPv6 and NIC
finalizers (but not the VM finalizer); an all-success `MigrateUID` visits the
IPv6 public IP *first* — before the IPv4 public IP, contradicting the claimed
creation order — and re-tags the VM although its finalizer is absent. -/
theorem c5_migrate_counterexample :
    (MigrateUID ⟨"m0", "olduid", [finalizerPublicIP, finalizerPublicIPv6, finalizerNIC]⟩
       "newuid" ⟨"olduid", "olduid", "olduid", "olduid", []⟩ allOkMigrateEnv).2.2 =
      [Ev.tagPubIP true "newuid", Ev.tagPubIP false "newuid", Ev.tagNIC "newuid",
       Ev.tagVM "newuid"] ∧
    (MigrateUID ⟨"m0", "olduid", [finalizerPublicIP, finalizerPublicIPv6, finalizerNIC]⟩
       "newuid" ⟨"olduid", "olduid", "olduid", "olduid", []⟩ allOkMigrateEnv).2.2.head? =
      some (Ev.tagPubIP true "newuid") ∧
    hasFinalizer ⟨"m0", "olduid", [finalizerPublicIP, finalizerPublicIPv6, finalizerNIC]⟩
      finalizerVM = false ∧
    Ev.tagVM "newuid" ∈
      (MigrateUID ⟨"m0", "olduid", [finalizerPublicIP, finalizerPublicIPv6, finalizerNIC]⟩
        "newuid" ⟨"olduid", "olduid", "olduid", "olduid", []⟩ allOkMigrateEnv).2.2 := by
  decide

/-- C5 (amended): under an all-success environment `MigrateUID` succeeds, and
its trace visits, gated on the finalizers present, the public IPv6 address
first, then the public IPv4 address, the NIC and the disks — and re-tags the
VM last, unconditionally — each call carrying the new UID (`traceAfter`);
running it a second time with the same new UID succeeds again and leaves the
backend unchanged (idempotence); and on the first failing call it aborts with
an error, having issued no later call. -/
theorem c5_migrate_amended (m : Machine) (u : String) (b : Backend) :
    (MigrateUID m u b allOkMigrateEnv).1 = .ok () ∧
    (MigrateUID m u b allOkMigrateEnv).2.2 = traceAfter m u b ∧
    (MigrateUID m u (MigrateUID m u b allOkMigrateEnv).2.1 allOkMigrateEnv).1 = .ok () ∧
    (MigrateUID m u (MigrateUID m u b allOkMigrateEnv).2.1 allOkMigrateEnv).2.1 =
      (MigrateUID m u b allOkMigrateEnv).2.1 ∧
    (hasFinalizer m finalizerPublicIPv6 = true →
      MigrateUID m u b ⟨true, true, false, true, true, true, true, true, true⟩ =
        (.error (.retriable "failed to update UID on public IP"), b, [Ev.tagPubIP true u])) := by
  have h1 := migrate_allOk m u b
  refine ⟨by rw [h1], by rw [h1], ?_, ?_, ?_⟩
  · rw [h1]
    show (MigrateUID m u (backendAfter m u b) allOkMigrateEnv).1 = .ok ()
    rw [migrate_allOk m u (backendAfter m u b)]
  · rw [h1]
    show (MigrateUID m u (backendAfter m u b) allOkMigrateEnv).2.1 = backendAfter m u b
    rw [migrate_allOk m u (backendAfter m u b)]
    exact backendAfter_idem m u b
  · intro hv6
    simp [MigrateUID, hv6]

/-- C5 witness: the abort-on-first-failure clause instantiated on a concrete
Machine carrying the PublicIPv6 finalizer, with the IPv6 re-tag call failing:
`MigrateUID` returns an error after issuing only that one call. -/
theorem c5_migrate_amended_witness :
    MigrateUID ⟨"w5", "olduid", [finalizerPublicIPv6]⟩ "newuid"
      ⟨"o", "o", "o", "o", []⟩ ⟨true, true, false, true, true, true, true, true, true⟩ =
      (.error (.retriable "failed to update UID on public IP"), ⟨"o", "o", "o", "o", []⟩,
       [Ev.tagPubIP true "newuid"]) :=
  (c5_migrate_amended ⟨"w5", "olduid", [finalizerPublicIPv6]⟩ "newuid"
    ⟨"o", "o", "o", "o", []⟩).2.2.2.2 (by decide)
